import Mathlib

/-!
# ocm-utils: lookups and connection configuration

A shallow embedding of `pkg/util/account.go`, `pkg/util/cluster.go` and
`pkg/util/ocm.go`.

* Go's `(value, error)` returns are kept as a pair of options (`nil` is `none`),
  wrapped in `Outcome` so that a run-time panic (index out of range, nil
  dereference) is a result of its own.
* Errors are their message text; `fmt.Sprintf`/`fmt.Errorf` are string
  concatenation, `%d` is `fmtD`.
* The remote API, the operating system and the SDK's connection builder are
  parameters (`Connection`, `World`).
-/

set_option autoImplicit false

namespace OcmUtils

/-! ## Results of a Go call -/

/-- Result of a Go function returning `(*T, error)`: either it returns the pair
(each side possibly `nil`), or it panics. -/
inductive Outcome (α : Type) where
  | ret (val : Option α) (err : Option String)
  | panic
  deriving DecidableEq, Repr

/-- The call returned with a non-nil error. -/
def Outcome.returnsError {α : Type} : Outcome α → Prop
  | .ret _ (some _) => True
  | _ => False

/-- Characters of `sub` occur contiguously in `s` (the meaning of `strings.Contains`). -/
def Contains (s sub : String) : Prop := sub.data <:+: s.data

/-- Rendering of `%d` for a Go `int`: decimal digits, with a leading `-` when negative. -/
def fmtD (n : Int) : String := toString n

/-! ## The remote API -/

/-- A page of a list response: the reported total and the items of the page. -/
structure ListResponse (α : Type) where
  total : Int
  items : List α
  deriving DecidableEq, Repr

/-- A list request: the search expression and the page size when one is set. -/
structure ListRequest where
  search : String
  size : Option Nat
  deriving DecidableEq, Repr

/-- The part of `amv1.Subscription` the code reads: `GetClusterID` gives the
identifier and whether it is set. -/
structure Subscription where
  id : String
  clusterID : Option String
  deriving DecidableEq, Repr

/-- An `amv1.Account` record. -/
structure Account where
  id : String
  username : String
  deriving DecidableEq, Repr

/-- A `cmv1.Cluster` record. -/
structure Cluster where
  id : String
  name : String
  deriving DecidableEq, Repr

/-- The `sdk.Connection` as the code uses it: each `Send()` either fails with an
error text or gives a response. -/
structure Connection where
  url : String
  subscriptionsList : ListRequest → Except String (ListResponse Subscription)
  accountsList : ListRequest → Except String (ListResponse Account)
  clustersList : ListRequest → Except String (ListResponse Cluster)
  clusterGet : String → Except String Cluster

/-- `Items().Get(0)` of the SDK list types: `nil` when the index is out of range. -/
def itemsGet0 {α : Type} (items : List α) : Option α := items.head?

/-! ## account.go -/

def GetSubscription (connection : Connection) (key : String) : Outcome Subscription :=
  let subsSearch := "(display_name = '" ++ key ++ "' or cluster_id = '" ++ key ++
    "' or external_cluster_id = '" ++ key ++ "' or id = '" ++ key ++ "')"
  match connection.subscriptionsList ⟨subsSearch, none⟩ with
  | .error err =>
    .ret none (some ("can't retrieve subscription for key '" ++ key ++ "': " ++ err))
  | .ok subsListResponse =>
    let subsTotal := subsListResponse.total
    if subsTotal = 1 then
      .ret (itemsGet0 subsListResponse.items) none
    else
      .ret none (some ("there are " ++ fmtD subsTotal ++
        " subscriptions with cluster identifier or name '" ++ key ++ "', expected 1"))

def GetAccount (connection : Connection) (key : String) : Outcome Account :=
  let accsSearch := "(username = '" ++ key ++ "' or id = '" ++ key ++ "')"
  match connection.accountsList ⟨accsSearch, none⟩ with
  | .error err =>
    .ret none (some ("can't retrieve account for key '" ++ key ++ "': " ++ err))
  | .ok accsListResponse =>
    let accsTotal := accsListResponse.total
    if accsTotal = 1 then
      .ret (itemsGet0 accsListResponse.items) none
    else
      .ret none (some ("there are " ++ fmtD accsTotal ++
        " accounts with id or username '" ++ key ++ "', expected 1"))

/-! ## cluster.go -/

def GetCluster (connection : Connection) (clusterId : String) : Outcome Cluster :=
  let clustersSearch := "id = '" ++ clusterId ++ "' or name = '" ++ clusterId ++
    "' or external_id = '" ++ clusterId ++ "'"
  match connection.clustersList ⟨clustersSearch, some 1⟩ with
  | .error err =>
    .ret none (some ("can't retrieve clusters for clusterId '" ++ clusterId ++ "': " ++ err))
  | .ok clustersListResponse =>
    let clustersTotal := clustersListResponse.total
    if clustersTotal = 1 then
      match clustersListResponse.items with
      | c :: _ => .ret (some c) none
      | [] => .panic
    else
      .ret none (some ("there are " ++ fmtD clustersTotal ++
        " clusters with identifier or name '" ++ clusterId ++ "', expected 1"))

/-- A request sent to the remote API, as recorded in the order of sending. -/
inductive Call where
  | subscriptionsList (req : ListRequest)
  | clusterGet (id : String)
  | clustersList (req : ListRequest)
  deriving DecidableEq, Repr

/-- The first block of `GetActiveCluster` (`if subsTotal == 1 ...`): `some` when the
block leaves the function (a return or a panic), with the requests it sent;
`none` when control falls out of the block. -/
def activeClusterBySubscription (connection : Connection) (key : String)
    (subsListResponse : ListResponse Subscription) : Option (Outcome Cluster × List Call) :=
  if subsListResponse.total = 1 then
    match subsListResponse.items with
    | [] => some (.panic, [])
    | s :: _ =>
      match s.clusterID with
      | some id =>
        match connection.clusterGet id with
        | .error err =>
          some (.ret none (some ("can't retrieve cluster for key '" ++ key ++ "': " ++ err)),
            [.clusterGet id])
        | .ok body => some (.ret (some body) none, [.clusterGet id])
      | none => none
  else none

/-- The function `GetActiveCluster`, returning its result together with the requests
it sent. -/
def GetActiveCluster (connection : Connection) (key : String) : Outcome Cluster × List Call :=
  let subsSearch := "(display_name = '" ++ key ++ "' or cluster_id = '" ++ key ++
    "' or external_cluster_id = '" ++ key ++ "') and " ++ "status in ('Reserved', 'Active')"
  let subsReq : ListRequest := ⟨subsSearch, some 1⟩
  match connection.subscriptionsList subsReq with
  | .error err =>
    (.ret none (some ("can't retrieve subscription for key '" ++ key ++ "': " ++ err)),
      [.subscriptionsList subsReq])
  | .ok subsListResponse =>
    let subsTotal := subsListResponse.total
    match activeClusterBySubscription connection key subsListResponse with
    | some (out, calls) => (out, .subscriptionsList subsReq :: calls)
    | none =>
      if subsTotal > 1 then
        (.ret none (some ("there are " ++ fmtD subsTotal ++
          " subscriptions with cluster identifier or name '" ++ key ++ "'")),
          [.subscriptionsList subsReq])
      else
        let clustersSearch := "id = '" ++ key ++ "' or name = '" ++ key ++
          "' or external_id = '" ++ key ++ "'"
        let clustersReq : ListRequest := ⟨clustersSearch, some 1⟩
        let calls := [Call.subscriptionsList subsReq, Call.clustersList clustersReq]
        match connection.clustersList clustersReq with
        | .error err =>
          (.ret none (some ("can't retrieve clusters for key '" ++ key ++ "': " ++ err)), calls)
        | .ok clustersListResponse =>
          let clustersTotal := clustersListResponse.total
          if clustersTotal = 1 then
            match clustersListResponse.items with
            | c :: _ => (.ret (some c) none, calls)
            | [] => (.panic, calls)
          else
            (.ret none (some ("there are " ++ fmtD clustersTotal ++
              " clusters with identifier or name '" ++ key ++ "', expected 1")), calls)

/-! ## ocm.go -/

def EnvProduction : String := "production"
def EnvStage : String := "stage"
def EnvIntegration : String := "integration"
def productionURL : String := "https://api.openshift.com"
def stagingURL : String := "https://api.stage.openshift.com"
def integrationURL : String := "https://api.integration.openshift.com"

/-- The entries of the map literal `urlAliases`, in source order. -/
def urlAliasesTable : List (String × String) :=
  [ ("production", productionURL),
    ("prod", productionURL),
    ("prd", productionURL),
    (productionURL, productionURL),
    ("staging", stagingURL),
    ("stage", stagingURL),
    ("stg", stagingURL),
    (stagingURL, stagingURL),
    ("integration", integrationURL),
    ("int", integrationURL),
    (integrationURL, integrationURL) ]

/-- The map index `urlAliases[k]`: the value and whether the key is present. -/
def urlAliases (k : String) : Option String := urlAliasesTable.lookup k

structure Config where
  AccessToken : String := ""
  ClientID : String := ""
  ClientSecret : String := ""
  Insecure : Bool := false
  Password : String := ""
  RefreshToken : String := ""
  Scopes : List String := []
  TokenURL : String := ""
  URL : String := ""
  User : String := ""
  Pager : String := ""
  deriving DecidableEq, Repr

/-- Result of `os.Stat` as the code tells it apart: success, an error for which
`os.IsNotExist` holds, or any other error. -/
inductive StatResult where
  | ok
  | notExist
  | otherErr (msg : String)
  deriving DecidableEq, Repr

/-- What the code reads from outside the repository: the process environment, the
file system, `filepath.Join`, `json.Unmarshal` into an empty `Config`, and
the SDK's `ConnectionBuilder.Build` (as a function of the tokens and the URL it
was given). -/
structure World where
  getenv : String → String
  userHomeDir : Except String String
  userConfigDir : Except String String
  stat : String → StatResult
  readFile : String → Except String String
  pathJoin : String → String → String
  jsonUnmarshal : String → Except String Config
  build : String → String → String → Except String Connection

/-- Assignment to a field through the pointer `config`: `none` is the nil-pointer
panic. -/
def store (config : Option Config) (f : Config → Config) : Option (Option Config) :=
  match config with
  | none => none
  | some c => some (some (f c))

def getOcmConfiguration (getenv : String → String)
    (ocmConfigLoader : Unit → Option Config × Option String) : Outcome Config :=
  let tokenEnv := getenv "OCM_TOKEN"
  let urlEnv := getenv "OCM_URL"
  let refreshTokenEnv := getenv "OCM_REFRESH_TOKEN"
  let config : Option Config := some {}
  let loaded : Option Config × Option String :=
    if tokenEnv = "" ∨ refreshTokenEnv = "" ∨ urlEnv = "" then ocmConfigLoader () else (config, none)
  match loaded with
  | (config, some _) => .ret config (some "could not load OCM configuration file")
  | (config, none) =>
    let overwritten : Option (Option Config) := do
      let config ← if tokenEnv ≠ "" then store config (fun c => { c with AccessToken := tokenEnv })
        else pure config
      let config ← if urlEnv ≠ "" then store config (fun c => { c with URL := urlEnv })
        else pure config
      let config ← if refreshTokenEnv ≠ "" then
          store config (fun c => { c with RefreshToken := refreshTokenEnv })
        else pure config
      pure config
    match overwritten with
    | none => .panic
    | some config => .ret config none

/-- The function `getOCMConfigLocation`: the returned path and error. -/
def getOCMConfigLocation (w : World) : String × Option String :=
  let ocmconfig := w.getenv "OCM_CONFIG"
  if ocmconfig ≠ "" then (ocmconfig, none)
  else
    match w.userHomeDir with
    | .error err => ("", some err)
    | .ok home =>
      let path := w.pathJoin home ".ocm.json"
      match w.stat path with
      | .notExist =>
        match w.userConfigDir with
        | .error err => (path, some err)
        | .ok configDir => (w.pathJoin configDir "/ocm/ocm.json", none)
      | _ => (path, none)

def loadOCMConfig (w : World) : Option Config × Option String :=
  match getOCMConfigLocation w with
  | (_, some err) => (none, some err)
  | (file, none) =>
    match w.stat file with
    | .notExist => (some {}, none)
    | .otherErr err =>
      (none, some ("can't check if config file '" ++ file ++ "' exists: " ++ err))
    | .ok =>
      match w.readFile file with
      | .error err => (none, some ("can't read config file '" ++ file ++ "': " ++ err))
      | .ok data =>
        if data.length = 0 then (none, none)
        else
          match w.jsonUnmarshal data with
          | .error err => (none, some ("can't parse config file '" ++ file ++ "': " ++ err))
          | .ok cfg => (some cfg, none)

def ocmConfigError : String :=
  "Unable to load OCM config\nLogin with 'ocm login' or set OCM_TOKEN, OCM_URL and OCM_REFRESH_TOKEN environment variables"

instance (s sub : String) : Decidable (Contains s sub) :=
  inferInstanceAs (Decidable (sub.data <:+: s.data))

def CreateConnection (w : World) : Outcome Connection :=
  match getOcmConfiguration w.getenv (fun _ => loadOCMConfig w) with
  | .panic => .panic
  | .ret _ (some _) => .ret none (some ocmConfigError)
  | .ret none none => .panic
  | .ret (some config) none =>
    if config.URL = "" then .ret none (some ocmConfigError)
    else
      match urlAliases config.URL with
      | none =>
        .ret none (some ("Invalid OCM_URL found: " ++ config.URL ++
          "\nValid URL aliases are: 'production', 'staging', 'integration'"))
      | some gatewayURL =>
        match w.build config.AccessToken config.RefreshToken gatewayURL with
        | .error err =>
          if Contains err "Not logged in, run the" then .ret none (some ocmConfigError)
          else .ret none (some ("failed to create OCM connection: " ++ err))
        | .ok connection => .ret (some connection) none

def GetCurrentEnv (connection : Connection) : String :=
  let url := connection.url
  if Contains url "stage" then EnvStage
  else if Contains url "integration" then EnvIntegration
  else EnvProduction

/-! ## Requests the lookups send -/

/-- The request `GetSubscription` sends for `key`. -/
def subscriptionRequest (key : String) : ListRequest :=
  ⟨"(display_name = '" ++ key ++ "' or cluster_id = '" ++ key ++
    "' or external_cluster_id = '" ++ key ++ "' or id = '" ++ key ++ "')", none⟩

/-- The request `GetAccount` sends for `key`. -/
def accountRequest (key : String) : ListRequest :=
  ⟨"(username = '" ++ key ++ "' or id = '" ++ key ++ "')", none⟩

/-- The request `GetCluster` sends for `clusterId`; `GetActiveCluster` sends the same
one as its fallback. -/
def clusterRequest (clusterId : String) : ListRequest :=
  ⟨"id = '" ++ clusterId ++ "' or name = '" ++ clusterId ++
    "' or external_id = '" ++ clusterId ++ "'", some 1⟩

/-- The subscription request `GetActiveCluster` sends first. -/
def activeSubscriptionRequest (key : String) : ListRequest :=
  ⟨"(display_name = '" ++ key ++ "' or cluster_id = '" ++ key ++
    "' or external_cluster_id = '" ++ key ++ "') and " ++ "status in ('Reserved', 'Active')",
    some 1⟩

/-! ## Go's `filepath.Join` on Unix, for the concrete worlds below -/

/-- Split a path at every `/`. -/
def splitSlash : List Char → List (List Char)
  | [] => [[]]
  | c :: cs =>
    if c = '/' then [] :: splitSlash cs
    else
      match splitSlash cs with
      | [] => [[c]]
      | x :: xs => (c :: x) :: xs

/-- One element of the path seen by `filepath.Clean`; `out` holds the kept
elements, last one first. Empty elements and `.` are dropped, `..` removes the
element before it (at the root it is dropped, at the start of a relative path it
is kept). -/
def cleanPush (rooted : Bool) (out : List (List Char)) (comp : List Char) : List (List Char) :=
  if comp = [] ∨ comp = ['.'] then out
  else if comp = ['.', '.'] then
    match out with
    | [] => if rooted then [] else [comp]
    | top :: rest => if top = ['.', '.'] then comp :: out else rest
  else comp :: out

/-- Go's `filepath.Clean` on Unix. -/
def filepathClean (path : String) : String :=
  if path = "" then "."
  else
    let rooted : Bool := path.data.head? = some '/'
    let comps := (splitSlash path.data).foldl (cleanPush rooted) []
    let body := String.intercalate "/" (comps.reverse.map String.mk)
    if rooted then "/" ++ body else if body = "" then "." else body

/-- Go's `filepath.Join` of two elements on Unix: the elements from the first
non-empty one on, joined with `/` and cleaned. -/
def filepathJoin (a b : String) : String :=
  if a = "" then (if b = "" then "" else filepathClean b)
  else filepathClean (a ++ "/" ++ b)

/-! ## Concrete inputs -/

/-- A connection whose every request fails. -/
def offline : Connection :=
  { url := productionURL
    subscriptionsList := fun _ => .error "connection refused"
    accountsList := fun _ => .error "connection refused"
    clustersList := fun _ => .error "connection refused"
    clusterGet := fun _ => .error "connection refused" }

/-- A world with no environment variable set, home `/home/u`, config directory
`/home/u/.config`, and no file at all. -/
def bareWorld : World :=
  { getenv := fun _ => ""
    userHomeDir := .ok "/home/u"
    userConfigDir := .ok "/home/u/.config"
    stat := fun _ => .notExist
    readFile := fun _ => .error "no such file or directory"
    pathJoin := filepathJoin
    jsonUnmarshal := fun _ => .error "unexpected end of JSON input"
    build := fun _ _ url => .ok { offline with url := url } }

/-- The value of a variable in an environment given as a list of bindings; unset
variables read as the empty string, as with `os.Getenv`. -/
def envOf (bindings : List (String × String)) (name : String) : String :=
  (bindings.lookup name).getD ""

/-- A connection answering every list request with one record and a total of 1. -/
def oneOfEach : Connection :=
  { url := productionURL
    subscriptionsList := fun _ => .ok ⟨1, [⟨"sub-1", some "c-1"⟩]⟩
    accountsList := fun _ => .ok ⟨1, [⟨"acc-1", "alice"⟩]⟩
    clustersList := fun _ => .ok ⟨1, [⟨"c-1", "demo"⟩]⟩
    clusterGet := fun _ => .ok ⟨"c-1", "demo"⟩ }

/-- A connection answering every list request with a total of 3 and two records. -/
def threeOfEach : Connection :=
  { url := productionURL
    subscriptionsList := fun _ => .ok ⟨3, [⟨"sub-1", some "c-1"⟩, ⟨"sub-2", none⟩]⟩
    accountsList := fun _ => .ok ⟨3, [⟨"acc-1", "alice"⟩, ⟨"acc-2", "bob"⟩]⟩
    clustersList := fun _ => .ok ⟨3, [⟨"c-1", "demo"⟩, ⟨"c-2", "demo"⟩]⟩
    clusterGet := fun _ => .ok ⟨"c-1", "demo"⟩ }

/-- A file configuration with every field of interest set. -/
def fileConfig : Config :=
  { AccessToken := "file-token", RefreshToken := "file-refresh", URL := "staging",
    User := "alice" }

/-- Keys of `urlAliases` for the production gateway. -/
def productionKeys : List String := ["production", "prod", "prd", productionURL]

/-- Keys of `urlAliases` for the staging gateway. -/
def stagingKeys : List String := ["staging", "stage", "stg", stagingURL]

/-- Keys of `urlAliases` for the integration gateway. -/
def integrationKeys : List String := ["integration", "int", integrationURL]

/-- The world `bareWorld` with every path present on disk: both the legacy file
`/home/u/.ocm.json` and the standard file `/home/u/.config/ocm/ocm.json` exist. -/
def bothFilesWorld : World := { bareWorld with stat := fun _ => .ok }

/-- The world `bothFilesWorld` with `OCM_CONFIG` set. -/
def overrideWorld : World :=
  { bothFilesWorld with getenv := envOf [("OCM_CONFIG", "/etc/ocm/custom.json")] }

/-- The world `bareWorld` with only `OCM_TOKEN` set. -/
def tokenOnlyWorld : World := { bareWorld with getenv := envOf [("OCM_TOKEN", "tok")] }

/-- The world `bareWorld` with all three variables set, the gateway being a complete
URL that is not one of the three known gateways. -/
def rawUrlWorld : World :=
  { bareWorld with
    getenv := envOf [("OCM_TOKEN", "tok"), ("OCM_REFRESH_TOKEN", "ref"),
      ("OCM_URL", "https://api.example.com")] }

/-- A connection whose subscription search finds exactly one subscription, one that
has no cluster identifier, and whose cluster search finds one cluster. -/
def noClusterIdConnection : Connection :=
  { url := productionURL
    subscriptionsList := fun _ => .ok ⟨1, [⟨"sub-1", none⟩]⟩
    accountsList := fun _ => .error "connection refused"
    clustersList := fun _ => .ok ⟨1, [⟨"c-1", "demo"⟩]⟩
    clusterGet := fun _ => .error "connection refused" }

/-- A world whose configuration file `/tmp/ocm.json` exists and has length zero, with
`OCM_TOKEN` set and the other two variables unset. -/
def emptyFileWorld : World :=
  { bareWorld with
    getenv := envOf [("OCM_CONFIG", "/tmp/ocm.json"), ("OCM_TOKEN", "tok")]
    stat := fun _ => .ok
    readFile := fun _ => .ok "" }

/-- The world `emptyFileWorld` without `OCM_TOKEN`. -/
def emptyFileNoEnvWorld : World :=
  { emptyFileWorld with getenv := envOf [("OCM_CONFIG", "/tmp/ocm.json")] }

/-! ## Theorems -/

theorem contains_mid (a b c : String) : Contains (a ++ b ++ c) b := by
  unfold Contains
  exact ⟨a.data, c.data, by simp [String.data_append]⟩

theorem contains_left {s t sub : String} (h : Contains s sub) : Contains (s ++ t) sub := by
  unfold Contains at *
  obtain ⟨p, q, hpq⟩ := h
  exact ⟨p, q ++ t.data, by simp [String.data_append, ← hpq]⟩

/-- The rendered total and the key both occur in a message built as
`pre ++ fmtD n ++ mid ++ key ++ post`. -/
theorem message_names_total_and_key (pre mid post key : String) (n : Int) :
    Contains (pre ++ fmtD n ++ mid ++ key ++ post) (fmtD n) ∧
      Contains (pre ++ fmtD n ++ mid ++ key ++ post) key := by
  refine ⟨?_, ?_⟩
  · exact contains_left (contains_left (contains_mid pre (fmtD n) mid))
  · exact contains_mid _ key post

/-! ### Lookups: exactly one match -/

/-- C1: for each of GetSubscription, GetAccount and GetCluster and every key, when the
search request succeeds and the response reports a total of exactly 1 with one item,
the lookup returns that item together with a nil error. -/
theorem lookup_returns_single_match (connection : Connection) (key : String) :
    (∀ (r : ListResponse Subscription) (it : Subscription),
        connection.subscriptionsList (subscriptionRequest key) = .ok r → r.total = 1 →
        r.items = [it] → GetSubscription connection key = .ret (some it) none) ∧
    (∀ (r : ListResponse Account) (it : Account),
        connection.accountsList (accountRequest key) = .ok r → r.total = 1 →
        r.items = [it] → GetAccount connection key = .ret (some it) none) ∧
    (∀ (r : ListResponse Cluster) (it : Cluster),
        connection.clustersList (clusterRequest key) = .ok r → r.total = 1 →
        r.items = [it] → GetCluster connection key = .ret (some it) none) := by
  refine ⟨?_, ?_, ?_⟩
  · intro r it hsend htotal hitems
    unfold subscriptionRequest at hsend
    simp [GetSubscription, hsend, htotal, hitems, itemsGet0]
  · intro r it hsend htotal hitems
    unfold accountRequest at hsend
    simp [GetAccount, hsend, htotal, hitems, itemsGet0]
  · intro r it hsend htotal hitems
    unfold clusterRequest at hsend
    simp [GetCluster, hsend, htotal, hitems]

theorem lookup_returns_single_match_witness :
    GetSubscription oneOfEach "demo" = .ret (some ⟨"sub-1", some "c-1"⟩) none ∧
    GetAccount oneOfEach "demo" = .ret (some ⟨"acc-1", "alice"⟩) none ∧
    GetCluster oneOfEach "demo" = .ret (some ⟨"c-1", "demo"⟩) none :=
  ⟨(lookup_returns_single_match oneOfEach "demo").1 _ _ rfl rfl rfl,
   (lookup_returns_single_match oneOfEach "demo").2.1 _ _ rfl rfl rfl,
   (lookup_returns_single_match oneOfEach "demo").2.2 _ _ rfl rfl rfl⟩

/-! ### Lookups: zero or several matches -/

theorem GetSubscription_error_iff (connection : Connection) (key : String) :
    (GetSubscription connection key).returnsError ↔
      ((∃ e, connection.subscriptionsList (subscriptionRequest key) = .error e) ∨
        ∃ r, connection.subscriptionsList (subscriptionRequest key) = .ok r ∧ r.total ≠ 1) := by
  unfold subscriptionRequest GetSubscription
  cases h : connection.subscriptionsList _ with
  | error e => simp [h, Outcome.returnsError]
  | ok r =>
    by_cases ht : r.total = 1 <;> simp [h, Outcome.returnsError, ht]

theorem GetAccount_error_iff (connection : Connection) (key : String) :
    (GetAccount connection key).returnsError ↔
      ((∃ e, connection.accountsList (accountRequest key) = .error e) ∨
        ∃ r, connection.accountsList (accountRequest key) = .ok r ∧ r.total ≠ 1) := by
  unfold accountRequest GetAccount
  cases h : connection.accountsList _ with
  | error e => simp [h, Outcome.returnsError]
  | ok r =>
    by_cases ht : r.total = 1 <;> simp [h, Outcome.returnsError, ht]

theorem GetCluster_error_iff (connection : Connection) (key : String) :
    (GetCluster connection key).returnsError ↔
      ((∃ e, connection.clustersList (clusterRequest key) = .error e) ∨
        ∃ r, connection.clustersList (clusterRequest key) = .ok r ∧ r.total ≠ 1) := by
  unfold clusterRequest GetCluster
  cases h : connection.clustersList _ with
  | error e => simp [h, Outcome.returnsError]
  | ok r =>
    by_cases ht : r.total = 1
    · cases hi : r.items <;> simp [h, Outcome.returnsError, ht, hi]
    · simp [h, Outcome.returnsError, ht]

/-- C2: for each of GetSubscription, GetAccount and GetCluster and every key, when the
search request succeeds with a total n other than 1 the lookup returns no record and an
error whose message contains the decimal rendering of n and the key; and an error is
returned exactly when the request failed or n is not 1. -/
theorem lookup_errors_on_other_totals (connection : Connection) (key : String) :
    ((∀ r : ListResponse Subscription,
        connection.subscriptionsList (subscriptionRequest key) = .ok r → r.total ≠ 1 →
        ∃ msg, GetSubscription connection key = .ret none (some msg) ∧
          Contains msg (fmtD r.total) ∧ Contains msg key) ∧
      ((GetSubscription connection key).returnsError ↔
        ((∃ e, connection.subscriptionsList (subscriptionRequest key) = .error e) ∨
          ∃ r, connection.subscriptionsList (subscriptionRequest key) = .ok r ∧ r.total ≠ 1))) ∧
    ((∀ r : ListResponse Account,
        connection.accountsList (accountRequest key) = .ok r → r.total ≠ 1 →
        ∃ msg, GetAccount connection key = .ret none (some msg) ∧
          Contains msg (fmtD r.total) ∧ Contains msg key) ∧
      ((GetAccount connection key).returnsError ↔
        ((∃ e, connection.accountsList (accountRequest key) = .error e) ∨
          ∃ r, connection.accountsList (accountRequest key) = .ok r ∧ r.total ≠ 1))) ∧
    ((∀ r : ListResponse Cluster,
        connection.clustersList (clusterRequest key) = .ok r → r.total ≠ 1 →
        ∃ msg, GetCluster connection key = .ret none (some msg) ∧
          Contains msg (fmtD r.total) ∧ Contains msg key) ∧
      ((GetCluster connection key).returnsError ↔
        ((∃ e, connection.clustersList (clusterRequest key) = .error e) ∨
          ∃ r, connection.clustersList (clusterRequest key) = .ok r ∧ r.total ≠ 1))) := by
  refine ⟨⟨?_, GetSubscription_error_iff connection key⟩,
    ⟨?_, GetAccount_error_iff connection key⟩, ⟨?_, GetCluster_error_iff connection key⟩⟩
  · intro r hsend htotal
    unfold subscriptionRequest at hsend
    refine ⟨_, ?_, message_names_total_and_key "there are "
      " subscriptions with cluster identifier or name '" "', expected 1" key r.total⟩
    simp [GetSubscription, hsend, htotal]
  · intro r hsend htotal
    unfold accountRequest at hsend
    refine ⟨_, ?_, message_names_total_and_key "there are "
      " accounts with id or username '" "', expected 1" key r.total⟩
    simp [GetAccount, hsend, htotal]
  · intro r hsend htotal
    unfold clusterRequest at hsend
    refine ⟨_, ?_, message_names_total_and_key "there are "
      " clusters with identifier or name '" "', expected 1" key r.total⟩
    simp [GetCluster, hsend, htotal]

theorem lookup_errors_on_other_totals_witness :
    (∃ msg, GetSubscription threeOfEach "demo" = .ret none (some msg) ∧
      Contains msg (fmtD 3) ∧ Contains msg "demo") ∧
    (∃ msg, GetAccount threeOfEach "demo" = .ret none (some msg) ∧
      Contains msg (fmtD 3) ∧ Contains msg "demo") ∧
    (∃ msg, GetCluster threeOfEach "demo" = .ret none (some msg) ∧
      Contains msg (fmtD 3) ∧ Contains msg "demo") :=
  ⟨(lookup_errors_on_other_totals threeOfEach "demo").1.1 _ rfl (by decide),
   (lookup_errors_on_other_totals threeOfEach "demo").2.1.1 _ rfl (by decide),
   (lookup_errors_on_other_totals threeOfEach "demo").2.2.1 _ rfl (by decide)⟩

/-! ### Environment over file configuration -/

/-- C3: when the loader returns a configuration without error, each of AccessToken, URL
and RefreshToken of the configuration returned by getOcmConfiguration is the value of its
environment variable when that is non-empty and the file's value otherwise. -/
theorem env_overrides_file_fieldwise (getenv : String → String)
    (ocmConfigLoader : Unit → Option Config × Option String) (fileCfg : Config)
    (hload : ocmConfigLoader () = (some fileCfg, none)) :
    ∃ c, getOcmConfiguration getenv ocmConfigLoader = .ret (some c) none ∧
      c.AccessToken =
        (if getenv "OCM_TOKEN" ≠ "" then getenv "OCM_TOKEN" else fileCfg.AccessToken) ∧
      c.URL = (if getenv "OCM_URL" ≠ "" then getenv "OCM_URL" else fileCfg.URL) ∧
      c.RefreshToken =
        (if getenv "OCM_REFRESH_TOKEN" ≠ "" then getenv "OCM_REFRESH_TOKEN"
          else fileCfg.RefreshToken) := by
  unfold getOcmConfiguration
  by_cases ht : getenv "OCM_TOKEN" = "" <;> by_cases hu : getenv "OCM_URL" = "" <;>
    by_cases hr : getenv "OCM_REFRESH_TOKEN" = "" <;>
    simp [ht, hu, hr, hload, store]

theorem env_overrides_file_fieldwise_witness :
    ∃ c, getOcmConfiguration (envOf [("OCM_URL", "prod")]) (fun _ => (some fileConfig, none)) =
        .ret (some c) none ∧
      c.AccessToken =
        (if envOf [("OCM_URL", "prod")] "OCM_TOKEN" ≠ "" then
          envOf [("OCM_URL", "prod")] "OCM_TOKEN" else fileConfig.AccessToken) ∧
      c.URL =
        (if envOf [("OCM_URL", "prod")] "OCM_URL" ≠ "" then
          envOf [("OCM_URL", "prod")] "OCM_URL" else fileConfig.URL) ∧
      c.RefreshToken =
        (if envOf [("OCM_URL", "prod")] "OCM_REFRESH_TOKEN" ≠ "" then
          envOf [("OCM_URL", "prod")] "OCM_REFRESH_TOKEN" else fileConfig.RefreshToken) :=
  env_overrides_file_fieldwise (envOf [("OCM_URL", "prod")]) (fun _ => (some fileConfig, none))
    fileConfig rfl

/-! ### Gateway aliases -/

theorem lookup_value_mem {α β : Type} [BEq α] (k : α) (v : β) :
    ∀ l : List (α × β), l.lookup k = some v → v ∈ l.map Prod.snd
  | [], h => by simp at h
  | (a, b) :: l, h => by
    rw [List.lookup_cons] at h
    cases hk : (k == a) with
    | true =>
      rw [hk] at h
      simp only [Option.some.injEq] at h
      simp [h]
    | false =>
      rw [hk] at h
      simp [lookup_value_mem k v l h]

/-- C4: the alias table sends production, prod, prd to the production URL, staging,
stage, stg to the staging URL, and integration, int to the integration URL; and every
value the table resolves to is itself a key resolving to itself. -/
theorem urlAliases_resolution :
    urlAliases "production" = some "https://api.openshift.com" ∧
    urlAliases "prod" = some "https://api.openshift.com" ∧
    urlAliases "prd" = some "https://api.openshift.com" ∧
    urlAliases "staging" = some "https://api.stage.openshift.com" ∧
    urlAliases "stage" = some "https://api.stage.openshift.com" ∧
    urlAliases "stg" = some "https://api.stage.openshift.com" ∧
    urlAliases "integration" = some "https://api.integration.openshift.com" ∧
    urlAliases "int" = some "https://api.integration.openshift.com" ∧
    ∀ k v, urlAliases k = some v → urlAliases v = some v := by
  refine ⟨by decide, by decide, by decide, by decide, by decide, by decide, by decide,
    by decide, ?_⟩
  intro k v h
  have hmem : v ∈ urlAliasesTable.map Prod.snd := lookup_value_mem k v _ h
  have hall : ∀ u ∈ urlAliasesTable.map Prod.snd, urlAliases u = some u := by decide
  exact hall v hmem

theorem urlAliases_resolution_witness :
    urlAliases "stg" = some stagingURL ∧ urlAliases stagingURL = some stagingURL :=
  ⟨by decide, urlAliases_resolution.2.2.2.2.2.2.2.2 "stg" stagingURL (by decide)⟩

/-! ### Environment of a connection -/

theorem GetCurrentEnv_of_url (connection : Connection) (u : String) (h : connection.url = u) :
    GetCurrentEnv connection =
      if Contains u "stage" then EnvStage
      else if Contains u "integration" then EnvIntegration
      else EnvProduction := by
  subst h
  rfl

/-- C10: every key of urlAliases is a production, staging or integration key, and a
connection whose URL is what the key resolves to is classified as EnvProduction, EnvStage
or EnvIntegration accordingly; in general GetCurrentEnv gives EnvStage if the URL contains
stage, otherwise EnvIntegration if it contains integration, otherwise EnvProduction. -/
theorem GetCurrentEnv_agrees_with_aliases :
    (urlAliasesTable.map Prod.fst = productionKeys ++ stagingKeys ++ integrationKeys) ∧
    (∀ (connection : Connection) (k : String), urlAliases k = some connection.url →
      (k ∈ productionKeys → GetCurrentEnv connection = EnvProduction) ∧
      (k ∈ stagingKeys → GetCurrentEnv connection = EnvStage) ∧
      (k ∈ integrationKeys → GetCurrentEnv connection = EnvIntegration)) ∧
    (∀ connection : Connection, GetCurrentEnv connection =
      if Contains connection.url "stage" then EnvStage
      else if Contains connection.url "integration" then EnvIntegration
      else EnvProduction) := by
  refine ⟨by decide, ?_, fun _ => rfl⟩
  intro connection k hk
  have hp : ∀ k ∈ productionKeys, ∀ u, urlAliases k = some u →
      (if Contains u "stage" then EnvStage
        else if Contains u "integration" then EnvIntegration else EnvProduction)
        = EnvProduction := by
    intro k hmem u hu
    simp only [productionKeys, List.mem_cons, List.mem_singleton, List.not_mem_nil,
      or_false] at hmem
    rcases hmem with rfl | rfl | rfl | rfl <;>
      · have hv : some u = some productionURL := hu.symm.trans (by decide)
        cases hv
        decide
  have hs : ∀ k ∈ stagingKeys, ∀ u, urlAliases k = some u →
      (if Contains u "stage" then EnvStage
        else if Contains u "integration" then EnvIntegration else EnvProduction)
        = EnvStage := by
    intro k hmem u hu
    simp only [stagingKeys, List.mem_cons, List.mem_singleton, List.not_mem_nil,
      or_false] at hmem
    rcases hmem with rfl | rfl | rfl | rfl <;>
      · have hv : some u = some stagingURL := hu.symm.trans (by decide)
        cases hv
        decide
  have hi : ∀ k ∈ integrationKeys, ∀ u, urlAliases k = some u →
      (if Contains u "stage" then EnvStage
        else if Contains u "integration" then EnvIntegration else EnvProduction)
        = EnvIntegration := by
    intro k hmem u hu
    simp only [integrationKeys, List.mem_cons, List.mem_singleton, List.not_mem_nil,
      or_false] at hmem
    rcases hmem with rfl | rfl | rfl <;>
      · have hv : some u = some integrationURL := hu.symm.trans (by decide)
        cases hv
        decide
  refine ⟨fun hmem => ?_, fun hmem => ?_, fun hmem => ?_⟩
  · rw [GetCurrentEnv_of_url connection _ rfl]; exact hp k hmem _ hk
  · rw [GetCurrentEnv_of_url connection _ rfl]; exact hs k hmem _ hk
  · rw [GetCurrentEnv_of_url connection _ rfl]; exact hi k hmem _ hk

theorem GetCurrentEnv_agrees_with_aliases_witness :
    GetCurrentEnv { offline with url := stagingURL } = EnvStage ∧
    GetCurrentEnv { offline with url := integrationURL } = EnvIntegration ∧
    GetCurrentEnv { offline with url := productionURL } = EnvProduction :=
  ⟨(GetCurrentEnv_agrees_with_aliases.2.1 { offline with url := stagingURL } "stg"
      (by decide)).2.1 (by decide),
   (GetCurrentEnv_agrees_with_aliases.2.1 { offline with url := integrationURL } "int"
      (by decide)).2.2 (by decide),
   (GetCurrentEnv_agrees_with_aliases.2.1 { offline with url := productionURL } "prd"
      (by decide)).1 (by decide)⟩

/-! ### Location of the configuration file -/

/-- C5, as stated, fails: with OCM_CONFIG unset and both the standard and the legacy file
present, getOCMConfigLocation returns the legacy path, not the standard one. -/
theorem config_location_both_present :
    bothFilesWorld.getenv "OCM_CONFIG" = "" ∧
    bothFilesWorld.userHomeDir = .ok "/home/u" ∧
    bothFilesWorld.userConfigDir = .ok "/home/u/.config" ∧
    bothFilesWorld.pathJoin "/home/u" ".ocm.json" = "/home/u/.ocm.json" ∧
    bothFilesWorld.pathJoin "/home/u/.config" "/ocm/ocm.json" = "/home/u/.config/ocm/ocm.json" ∧
    bothFilesWorld.stat "/home/u/.config/ocm/ocm.json" = .ok ∧
    bothFilesWorld.stat "/home/u/.ocm.json" = .ok ∧
    getOCMConfigLocation bothFilesWorld = ("/home/u/.ocm.json", none) ∧
    getOCMConfigLocation bothFilesWorld ≠ ("/home/u/.config/ocm/ocm.json", none) :=
  ⟨by decide, rfl, rfl, by decide, by decide, by decide, by decide, by decide, by decide⟩

/-- C5, amended: getOCMConfigLocation returns OCM_CONFIG whenever it is non-empty,
regardless of the file system; otherwise, with home directory known, the legacy path
`<home>/.ocm.json` unless Stat reports that file absent, and in that case the standard
path `<user config dir>/ocm/ocm.json`, whether or not a file is there. -/
theorem config_location_legacy_first (w : World) :
    (w.getenv "OCM_CONFIG" ≠ "" → getOCMConfigLocation w = (w.getenv "OCM_CONFIG", none)) ∧
    (w.getenv "OCM_CONFIG" = "" → ∀ home, w.userHomeDir = .ok home →
      (w.stat (w.pathJoin home ".ocm.json") ≠ .notExist →
        getOCMConfigLocation w = (w.pathJoin home ".ocm.json", none)) ∧
      (w.stat (w.pathJoin home ".ocm.json") = .notExist →
        ∀ configDir, w.userConfigDir = .ok configDir →
          getOCMConfigLocation w = (w.pathJoin configDir "/ocm/ocm.json", none))) := by
  refine ⟨fun hset => ?_, fun hunset home hhome => ⟨fun hstat => ?_, fun hstat configDir hdir => ?_⟩⟩
  · simp [getOCMConfigLocation, hset]
  · unfold getOCMConfigLocation
    simp only [hunset, hhome]
    cases hs : w.stat (w.pathJoin home ".ocm.json") with
    | notExist => exact absurd hs hstat
    | ok => simp
    | otherErr msg => simp
  · simp [getOCMConfigLocation, hunset, hhome, hstat, hdir]

theorem config_location_legacy_first_witness :
    getOCMConfigLocation overrideWorld = ("/etc/ocm/custom.json", none) ∧
    getOCMConfigLocation bothFilesWorld = ("/home/u/.ocm.json", none) ∧
    getOCMConfigLocation bareWorld = ("/home/u/.config/ocm/ocm.json", none) :=
  ⟨(config_location_legacy_first overrideWorld).1 (by decide),
   ((config_location_legacy_first bothFilesWorld).2 (by decide) "/home/u" rfl).1 (by decide),
   ((config_location_legacy_first bareWorld).2 (by decide) "/home/u" rfl).2 (by decide)
      "/home/u/.config" rfl⟩

/-! ### A missing configuration file -/

/-- C7, as stated, fails: with no variable set and no file at the resolved location,
getOcmConfiguration applied to loadOCMConfig returns the empty configuration and a nil
error. -/
theorem missing_file_returns_no_error :
    bareWorld.getenv "OCM_TOKEN" = "" ∧
    getOCMConfigLocation bareWorld = ("/home/u/.config/ocm/ocm.json", none) ∧
    bareWorld.stat "/home/u/.config/ocm/ocm.json" = .notExist ∧
    getOcmConfiguration bareWorld.getenv (fun _ => loadOCMConfig bareWorld) =
      .ret (some {}) none ∧
    ¬ (getOcmConfiguration bareWorld.getenv (fun _ => loadOCMConfig bareWorld)).returnsError := by
  refine ⟨by decide, by decide, by decide, by decide, ?_⟩
  have h : getOcmConfiguration bareWorld.getenv (fun _ => loadOCMConfig bareWorld) =
      .ret (some {}) none := by decide
  rw [h]
  simp [Outcome.returnsError]

theorem loadOCMConfig_missing (w : World) (file : String)
    (hloc : getOCMConfigLocation w = (file, none)) (hstat : w.stat file = .notExist) :
    loadOCMConfig w = (some {}, none) := by
  simp [loadOCMConfig, hloc, hstat]

/-- C7, amended: when at least one of OCM_TOKEN, OCM_URL, OCM_REFRESH_TOKEN is empty and
the file at the resolved location does not exist, getOcmConfiguration applied to
loadOCMConfig returns a nil error and the empty configuration with AccessToken, URL and
RefreshToken taken from the environment; the failure is reported by CreateConnection, which
returns the configuration error when OCM_URL is empty. -/
theorem missing_file_is_empty_config (w : World) (file : String)
    (henv : w.getenv "OCM_TOKEN" = "" ∨ w.getenv "OCM_URL" = "" ∨
      w.getenv "OCM_REFRESH_TOKEN" = "")
    (hloc : getOCMConfigLocation w = (file, none)) (hstat : w.stat file = .notExist) :
    getOcmConfiguration w.getenv (fun _ => loadOCMConfig w) =
      .ret (some { AccessToken := w.getenv "OCM_TOKEN", URL := w.getenv "OCM_URL",
                   RefreshToken := w.getenv "OCM_REFRESH_TOKEN" }) none ∧
    (w.getenv "OCM_URL" = "" → CreateConnection w = .ret none (some ocmConfigError)) := by
  have hload := loadOCMConfig_missing w file hloc hstat
  have hcfg : getOcmConfiguration w.getenv (fun _ => loadOCMConfig w) =
      .ret (some { AccessToken := w.getenv "OCM_TOKEN", URL := w.getenv "OCM_URL",
                   RefreshToken := w.getenv "OCM_REFRESH_TOKEN" }) none := by
    unfold getOcmConfiguration
    by_cases ht : w.getenv "OCM_TOKEN" = "" <;> by_cases hu : w.getenv "OCM_URL" = "" <;>
      by_cases hr : w.getenv "OCM_REFRESH_TOKEN" = "" <;>
      simp [ht, hu, hr, hload, store] at henv ⊢
  refine ⟨hcfg, fun hurl => ?_⟩
  unfold CreateConnection
  rw [hcfg]
  simp [hurl]

theorem missing_file_is_empty_config_witness :
    getOcmConfiguration tokenOnlyWorld.getenv (fun _ => loadOCMConfig tokenOnlyWorld) =
      .ret (some { AccessToken := "tok" }) none ∧
    CreateConnection tokenOnlyWorld = .ret none (some ocmConfigError) :=
  ⟨(missing_file_is_empty_config tokenOnlyWorld "/home/u/.config/ocm/ocm.json"
      (Or.inr (Or.inl (by decide))) (by decide) (by decide)).1,
   (missing_file_is_empty_config tokenOnlyWorld "/home/u/.config/ocm/ocm.json"
      (Or.inr (Or.inl (by decide))) (by decide) (by decide)).2 (by decide)⟩

/-! ### A complete URL as gateway -/

theorem getOcmConfiguration_all_env (getenv : String → String)
    (ocmConfigLoader : Unit → Option Config × Option String)
    (ht : getenv "OCM_TOKEN" ≠ "") (hu : getenv "OCM_URL" ≠ "")
    (hr : getenv "OCM_REFRESH_TOKEN" ≠ "") :
    getOcmConfiguration getenv ocmConfigLoader =
      .ret (some { AccessToken := getenv "OCM_TOKEN", URL := getenv "OCM_URL",
                   RefreshToken := getenv "OCM_REFRESH_TOKEN" }) none := by
  simp [getOcmConfiguration, ht, hu, hr, store]

/-- With all three variables set, a gateway value that is not a key of the alias table
is rejected, whatever the file system and the connection builder do. -/
theorem CreateConnection_rejects_unlisted (w : World)
    (ht : w.getenv "OCM_TOKEN" ≠ "") (hu : w.getenv "OCM_URL" ≠ "")
    (hr : w.getenv "OCM_REFRESH_TOKEN" ≠ "") (hkey : urlAliases (w.getenv "OCM_URL") = none) :
    CreateConnection w = .ret none (some ("Invalid OCM_URL found: " ++ w.getenv "OCM_URL" ++
      "\nValid URL aliases are: 'production', 'staging', 'integration'")) := by
  unfold CreateConnection
  rw [getOcmConfiguration_all_env _ _ ht hu hr]
  simp [hu, hkey]

/-- C6 on the code: with OCM_URL set to the complete URL https://api.example.com (and
both tokens set), CreateConnection does not build a connection; it returns the
invalid-URL error. -/
theorem CreateConnection_raw_url_rejected :
    rawUrlWorld.getenv "OCM_URL" = "https://api.example.com" ∧
    urlAliases "https://api.example.com" = none ∧
    CreateConnection rawUrlWorld = .ret none (some
      "Invalid OCM_URL found: https://api.example.com\nValid URL aliases are: 'production', 'staging', 'integration'") :=
  ⟨by decide, by decide, rfl⟩

/-! ### The fallback search of GetActiveCluster -/

/-- When the subscription search reports more than one match, GetActiveCluster returns
an error naming the total and sends no request besides the subscription search. -/
theorem GetActiveCluster_many_subscriptions (connection : Connection) (key : String)
    (r : ListResponse Subscription)
    (hsend : connection.subscriptionsList (activeSubscriptionRequest key) = .ok r)
    (hmany : r.total > 1) :
    GetActiveCluster connection key =
      (.ret none (some ("there are " ++ fmtD r.total ++
        " subscriptions with cluster identifier or name '" ++ key ++ "'")),
        [.subscriptionsList (activeSubscriptionRequest key)]) := by
  have hne : r.total ≠ 1 := by omega
  unfold activeSubscriptionRequest at hsend
  simp [GetActiveCluster, activeClusterBySubscription, activeSubscriptionRequest, hsend, hne,
    hmany]

/-- The cluster search of GetActiveCluster is sent exactly when the subscription search
succeeds and either its total is below 1, or its total is 1 and the first subscription
has no cluster identifier. -/
theorem GetActiveCluster_fallback_iff (connection : Connection) (key : String) :
    Call.clustersList (clusterRequest key) ∈ (GetActiveCluster connection key).2 ↔
      ∃ r, connection.subscriptionsList (activeSubscriptionRequest key) = .ok r ∧
        (r.total < 1 ∨ (r.total = 1 ∧ ∃ s rest, r.items = s :: rest ∧ s.clusterID = none)) := by
  unfold activeSubscriptionRequest clusterRequest GetActiveCluster
  cases hsend : connection.subscriptionsList _ with
  | error e => simp [hsend]
  | ok r =>
    simp only [hsend, activeClusterBySubscription]
    by_cases h1 : r.total = 1
    · cases hi : r.items with
      | nil => simp [h1, hi]
      | cons s rest =>
        cases hc : s.clusterID with
        | some id =>
          cases hg : connection.clusterGet id <;> simp [h1, hi, hc, hg]
        | none =>
          cases hl : connection.clustersList
            ⟨"id = '" ++ key ++ "' or name = '" ++ key ++ "' or external_id = '" ++ key ++ "'",
              some 1⟩ with
          | error e => simp [h1, hi, hc, hl]
          | ok cr =>
            by_cases hc1 : cr.total = 1
            · cases hci : cr.items <;> simp [h1, hi, hc, hl, hc1, hci]
            · simp [h1, hi, hc, hl, hc1]
    · by_cases hgt : r.total > 1
      · have hlt : ¬ r.total < 1 := by omega
        simp [h1, hgt, hlt]
      · have hlt : r.total < 1 := by omega
        cases hl : connection.clustersList
          ⟨"id = '" ++ key ++ "' or name = '" ++ key ++ "' or external_id = '" ++ key ++ "'",
            some 1⟩ with
        | error e => simp [h1, hgt, hlt, hl]
        | ok cr =>
          by_cases hc1 : cr.total = 1
          · cases hci : cr.items <;> simp [h1, hgt, hlt, hl, hc1, hci]
          · simp [h1, hgt, hlt, hl, hc1]

/-- C8 on the code: the subscription search reports a total of 1, the subscription has
no cluster identifier, and GetActiveCluster goes on to the cluster search and returns
the cluster found there. -/
theorem GetActiveCluster_fallback_with_one_subscription :
    noClusterIdConnection.subscriptionsList (activeSubscriptionRequest "demo") =
      .ok ⟨1, [⟨"sub-1", none⟩]⟩ ∧
    GetActiveCluster noClusterIdConnection "demo" =
      (.ret (some ⟨"c-1", "demo"⟩) none,
        [.subscriptionsList (activeSubscriptionRequest "demo"),
         .clustersList (clusterRequest "demo")]) :=
  ⟨rfl, by decide⟩

/-! ### An empty configuration file -/

/-- With no variable set, an empty configuration file makes getOcmConfiguration return
a nil configuration with a nil error, and CreateConnection panics on reading it. -/
theorem empty_file_nil_config :
    getOcmConfiguration emptyFileNoEnvWorld.getenv (fun _ => loadOCMConfig emptyFileNoEnvWorld) =
      .ret none none ∧
    CreateConnection emptyFileNoEnvWorld = .panic :=
  ⟨by decide, rfl⟩

/-- C9 on the code: for an existing zero-length configuration file loadOCMConfig returns
a nil configuration and a nil error, and with OCM_TOKEN set getOcmConfiguration panics on
the assignment through that nil pointer; so does CreateConnection. -/
theorem empty_file_nil_dereference :
    getOCMConfigLocation emptyFileWorld = ("/tmp/ocm.json", none) ∧
    emptyFileWorld.stat "/tmp/ocm.json" = .ok ∧
    emptyFileWorld.readFile "/tmp/ocm.json" = .ok "" ∧
    loadOCMConfig emptyFileWorld = (none, none) ∧
    getOcmConfiguration emptyFileWorld.getenv (fun _ => loadOCMConfig emptyFileWorld) = .panic ∧
    CreateConnection emptyFileWorld = .panic :=
  ⟨by decide, by decide, rfl, by decide, by decide, rfl⟩

end OcmUtils
